import Mathlib

/-!
Verification of the core logic of a Telegram business-idea bot (`main.py`):
the MarkdownV2 escaper, the prompt builder, the completion-gateway error
path, the callback router, the category-selection handler, the delivery
fallback, the categories menu, and the startup guard.  Strings are modelled
as Lean `String`s; Python string operations (`in`, `replace`, `startswith`,
`re.sub` over a character class) are embedded as executable functions on
`List Char`.
-/

set_option autoImplicit false

/-- Embedding of Python's substring test `pat in s`, on character lists. -/
def containsSub (pat : List Char) : List Char → Bool
  | [] => pat.isEmpty
  | c :: rest => pat.isPrefixOf (c :: rest) || containsSub pat rest

/-- Number of positions at which `pat` occurs in the list. -/
def countSub (pat : List Char) : List Char → Nat
  | [] => 0
  | c :: rest => (if pat.isPrefixOf (c :: rest) then 1 else 0) + countSub pat rest

/-- Embedding of Python's `s.replace("\\*", "*")` (used to restore intended
bold markup after escaping): left-to-right, non-overlapping replacement of
the two-character pattern backslash-asterisk by an asterisk. -/
def unescapeStars : List Char → List Char
  | [] => []
  | [c] => [c]
  | a :: b :: rest =>
    if a = '\\' ∧ b = '*' then '*' :: unescapeStars rest
    else a :: unescapeStars (b :: rest)

/-- Embedding of Python's `s.replace("category_", "")`: left-to-right,
non-overlapping removal of every occurrence of `"category_"`. -/
def stripCategoryTags : List Char → List Char
  | 'c' :: 'a' :: 't' :: 'e' :: 'g' :: 'o' :: 'r' :: 'y' :: '_' :: rest =>
    stripCategoryTags rest
  | c :: rest => c :: stripCategoryTags rest
  | [] => []

/-- The reserved characters of Telegram MarkdownV2, exactly the Python
literal `r'_*[]()~`>#+-=|{}.!'` at `main.py:34`. -/
def escapeChars : List Char := "_*[]()~`>#+-=|\x7b\x7d.!".data

/-- Embedding of `escape_markdown_v2` (`main.py:28-35`): the `re.sub` over
the character class prefixes every reserved character with a backslash. -/
def escape_markdown_v2_list : List Char → List Char
  | [] => []
  | c :: rest =>
    if escapeChars.contains c then '\\' :: c :: escape_markdown_v2_list rest
    else c :: escape_markdown_v2_list rest

/-- String-level wrapper of the escaper. -/
def escape_markdown_v2 (s : String) : String := ⟨escape_markdown_v2_list s.data⟩

/-- Removal of the escape markers the escaper inserts: a backslash standing
immediately before a reserved character is dropped.  This is the inverse
operation named by the round-trip property of the spec. -/
def removeEscapes : List Char → List Char
  | [] => []
  | [c] => [c]
  | a :: b :: rest =>
    if a = '\\' ∧ escapeChars.contains b then b :: removeEscapes rest
    else a :: removeEscapes (b :: rest)

example : escape_markdown_v2 "a.b!" = "a\\.b\\!" := by decide
example : removeEscapes (escape_markdown_v2_list "a.b!".data) = "a.b!".data := by decide
example : unescapeStars "\\*bold\\*\\.".data = "*bold*\\.".data := by decide
example : stripCategoryTags "category_category_tech".data = "tech".data := by decide

/-- The fixed category table (`main.py:50-63`), as an association list in
source order. -/
def BUSINESS_CATEGORIES : List (String × String) :=
  [("tech", "🚀 Technology & Software"),
   ("ecommerce", "🛒 E-commerce & Online Business"),
   ("health", "🏥 Health & Wellness"),
   ("food", "🍔 Food & Beverage"),
   ("education", "📚 Education & Training"),
   ("finance", "💰 Finance & Investment"),
   ("marketing", "📱 Marketing & Social Media"),
   ("sustainability", "🌱 Sustainability & Green Business"),
   ("retail", "🏪 Retail & Consumer Goods"),
   ("services", "🔧 Professional Services"),
   ("entertainment", "🎬 Entertainment & Media"),
   ("travel", "✈️ Travel & Tourism")]

/-- Fixed text of the prompt before the first interpolation of the
category name (`main.py:142`). -/
def promptPart1 : String :=
  "Generate a comprehensive and innovative business idea for the '"

/-- Fixed text of the prompt between the two interpolations of the
category name (`main.py:142-175`). -/
def promptPart2 : String :=
  "' category.\n\nPlease format your response with the following structure using markdown (use * for bold, not #):\n\n*🚀 Business Idea: [Creative Business Name]*\n\n*💡 Core Concept*\n[Brief, compelling description of the business idea]\n\n*🎯 Target Market*\n[Define the target audience and market size]\n\n*💰 Revenue Model*\n[Explain how the business will make money]\n\n*🔥 Unique Value Proposition*\n[What makes this business special and competitive]\n\n*📈 Market Opportunity*\n[Market trends and opportunities]\n\n*🛠️ Getting Started*\n[3-4 practical steps to launch this business]\n\n*💵 Estimated Startup Investment*\n[Rough estimate of initial investment needed]\n\n*⚡ Success Factors*\n[Key factors for success in this business]\n\nEnsure the idea is:\n- Innovative and relevant to current market trends\n- Practical and achievable\n- Specific to the "

/-- Fixed text of the prompt after the second interpolation of the
category name (`main.py:175-177`). -/
def promptPart3 : String := " sector\n- Formatted with proper markdown for Telegram.\n"

/-- The prompt built by `generate_business_idea` (`main.py:142-177`): the
f-string interpolates the raw category name twice. -/
def generate_business_idea_prompt (category_name : String) : String :=
  promptPart1 ++ category_name ++ promptPart2 ++ category_name ++ promptPart3

/-- The eight required section headers of the prompt, as they appear
literally in the source template. -/
def sectionHeaders : List String :=
  ["*💡 Core Concept*", "*🎯 Target Market*", "*💰 Revenue Model*",
   "*🔥 Unique Value Proposition*", "*📈 Market Opportunity*",
   "*🛠️ Getting Started*", "*💵 Estimated Startup Investment*",
   "*⚡ Success Factors*"]

/-- Fixed text of the error card before the escaped category name
(`main.py:185-187`). -/
def errPart1 : String :=
  "*❌ Error Generating Idea*\n\nSorry, I encountered an error while generating a business idea for *"

/-- Fixed text of the error card between the escaped category name and the
escaped error details (`main.py:187-191`). -/
def errPart2 : String :=
  "*.\n\nPlease try again later or contact support if the issue persists.\n\n*Error Details:* `"

/-- Fixed text of the error card after the escaped error details
(`main.py:191`). -/
def errPart3 : String := "`"

/-- The string returned by `generate_business_idea` when the completion
call fails (`main.py:183-192`): the error template with the escaped
category name and escaped error text inserted, then `\\*` restored to `*`. -/
def generate_business_idea_onFailure (category_name err : String) : String :=
  ⟨unescapeStars (errPart1 ++ escape_markdown_v2 category_name ++ errPart2
      ++ escape_markdown_v2 err ++ errPart3).data⟩

/-- The handlers reachable from `callback_query_handler`
(`main.py:384-398`). -/
inductive Handler where
  | showCategories
  | randomIdea
  | showHelp
  | backToStart
  | categorySelection
deriving DecidableEq, Repr

/-- The exact-match route table of `callback_query_handler`
(`main.py:388-393`). -/
def route_map : List (String × Handler) :=
  [("show_categories", Handler.showCategories),
   ("random_idea", Handler.randomIdea),
   ("help", Handler.showHelp),
   ("back_to_start", Handler.backToStart)]

/-- Embedding of `callback_query_handler` (`main.py:384-398`): exact-match
lookup first, then the `startswith("category_")` test; anything else calls
no handler. -/
def callback_query_handler (data : String) : Option Handler :=
  match route_map.lookup data with
  | some h => some h
  | none =>
    if ("category_".data).isPrefixOf data.data then some Handler.categorySelection
    else none

/-- Fixed text of the loading message before the escaped category name
(`main.py:203`). -/
def loadPart1 : String := "🔄 *Generating business idea for "

/-- Fixed text of the loading message after the escaped category name
(`main.py:203`). -/
def loadPart2 : String :=
  "\\.\\.\\.*\n\nPlease wait while I create an innovative business concept for you\\!"

/-- The loading message shown by `handle_category_selection`
(`main.py:203-204`), with `\\*` restored to `*`. -/
def loadingText (category_name : String) : String :=
  ⟨unescapeStars (loadPart1 ++ escape_markdown_v2 category_name ++ loadPart2).data⟩

/-- The data `handle_category_selection` computes and passes on: the
derived key, the resolved display name, and the loading message it edits
into the chat. -/
structure CategorySelection where
  category_key : String
  category_name : String
  loading_text : String
deriving DecidableEq, Repr

/-- Embedding of `handle_category_selection` (`main.py:194-208`): the key
is the callback data with every `"category_"` removed, the name is looked
up with fallback `"Unknown Category"`, and the loading message is edited
in before generation proceeds with that key and name. -/
def handle_category_selection (data : String) : CategorySelection :=
  let category_key : String := ⟨stripCategoryTags data.data⟩
  let category_name := (BUSINESS_CATEGORIES.lookup category_key).getD "Unknown Category"
  { category_key := category_key
    category_name := category_name
    loading_text := loadingText category_name }

/-- Outcome of the first, markdown-mode send of the generated idea. -/
inductive TransportResult where
  | ok
  | badRequest (msg : String)
deriving DecidableEq, Repr

/-- Observable steps of the delivery code in `_generate_and_send_idea`
(`main.py:294-319`). -/
inductive DeliveryAction where
  | attemptMarkdown (text : String)
  | attemptPlain (text : String)
  | invokeErrorHandler
deriving DecidableEq, Repr

/-- Embedding of the try/except delivery logic of `_generate_and_send_idea`
(`main.py:294-319`): send the idea in MarkdownV2; on a `BadRequest` whose
message contains `"Can't parse entities"` re-send once, escaped, with no
parse mode; on any other `BadRequest` call `error_handler`. -/
def sendIdeaWithFallback (business_idea : String) (first : TransportResult) :
    List DeliveryAction :=
  match first with
  | TransportResult.ok => [DeliveryAction.attemptMarkdown business_idea]
  | TransportResult.badRequest e =>
    if containsSub ("Can't parse entities".data) e.data then
      [DeliveryAction.attemptMarkdown business_idea,
       DeliveryAction.attemptPlain (escape_markdown_v2 business_idea)]
    else
      [DeliveryAction.attemptMarkdown business_idea,
       DeliveryAction.invokeErrorHandler]

/-- Number of plain-text (fallback) send attempts in a delivery trace. -/
def countPlainAttempts (acts : List DeliveryAction) : Nat :=
  acts.countP (fun a => match a with
    | DeliveryAction.attemptPlain _ => true
    | _ => false)

/-- Number of send attempts of any kind in a delivery trace. -/
def countSendAttempts (acts : List DeliveryAction) : Nat :=
  acts.countP (fun a => match a with
    | DeliveryAction.attemptPlain _ => true
    | DeliveryAction.attemptMarkdown _ => true
    | _ => false)

/-- An inline keyboard button: display text plus callback data. -/
structure Button where
  text : String
  callback_data : String
deriving DecidableEq, Repr

/-- Embedding of the two-per-row chunking loop of `show_categories`
(`main.py:114-122`). -/
def pairRows : List (String × String) → List (List Button)
  | [] => []
  | [(k, v)] => [[⟨v, "category_" ++ k⟩]]
  | (k1, v1) :: (k2, v2) :: rest =>
    [⟨v1, "category_" ++ k1⟩, ⟨v2, "category_" ++ k2⟩] :: pairRows rest

/-- The keyboard attached by `show_categories` (`main.py:114-127`):
category rows then the back-to-menu row. -/
def show_categories_keyboard : List (List Button) :=
  pairRows BUSINESS_CATEGORIES ++ [[⟨"🔙 Back to Menu", "back_to_start"⟩]]

/-- The message text of `show_categories` (`main.py:109-112`). -/
def show_categories_message : String :=
  ⟨unescapeStars (escape_markdown_v2
      "🏢 *Choose a Business Category:*\n\nSelect a category to get tailored business ideas:").data⟩

/-- Observable startup steps of `run` (`main.py:416-466`). -/
inductive RunAction where
  | logCritical (msg : String)
  | registerHandlers
  | startWebhook
  | startPolling
  | idle
deriving DecidableEq, Repr

/-- Python truthiness of an optional environment string: `not x` is true
when the variable is unset or empty. -/
def truthy : Option String → Bool
  | none => false
  | some s => !(s == "")

/-- Embedding of `run` (`main.py:416-466`): guard on the token, the key and
the model handle, then register handlers and start the chosen transport. -/
def run (token geminiKey : Option String) (modelOk : Bool)
    (webhookUrl : Option String) : List RunAction :=
  if !truthy token then
    [RunAction.logCritical "❌ TELEGRAM_BOT_TOKEN environment variable not set! The bot cannot start."]
  else if !truthy geminiKey then
    [RunAction.logCritical "❌ GEMINI_API_KEY environment variable not set! The bot cannot start."]
  else if !modelOk then
    [RunAction.logCritical "❌ Gemini AI model failed to initialize. Please check API key and configuration."]
  else
    RunAction.registerHandlers ::
      (if truthy webhookUrl then [RunAction.startWebhook] else [RunAction.startPolling])
      ++ [RunAction.idle]

/-- The reserved characters that are not used as markup by the fixed
templates (which use only `*` for bold and the backtick for code). -/
def reservedNonMarkup : List Char :=
  escapeChars.filter (fun c => !(c == '*') && !(c == '`'))

/-- Helper for `allNonMarkupEscaped`: walk with the previous character. -/
def allNonMarkupEscapedAux (prev : Char) : List Char → Bool
  | [] => true
  | c :: rest =>
    (!(reservedNonMarkup.contains c) || prev == '\\') && allNonMarkupEscapedAux c rest

/-- Every reserved character other than the markup characters `*` and
backtick is immediately preceded by a backslash. -/
def allNonMarkupEscaped : List Char → Bool
  | [] => true
  | c :: rest => !(reservedNonMarkup.contains c) && allNonMarkupEscapedAux c rest

example : callback_query_handler "category_tech" = some Handler.categorySelection := by decide
example : callback_query_handler "bogus" = none := by decide
example : (handle_category_selection "category_food").category_name = "🍔 Food & Beverage" := by decide
example : (handle_category_selection "category_xyz").category_name = "Unknown Category" := by decide
example : allNonMarkupEscaped "a\\.b".data = true := by decide
example : allNonMarkupEscaped "a.b".data = false := by decide

/-! ### Helper lemmas -/

theorem containsSub_eq_true_iff (pat l : List Char) :
    containsSub pat l = true ↔ pat <:+: l := by
  induction l with
  | nil =>
    simp [containsSub, List.isEmpty_iff]
  | cons c rest ih =>
    simp [containsSub, List.isPrefixOf_iff_prefix, ih, List.infix_cons_iff]

theorem unescapeStars_cons_of_ne (a : Char) (l : List Char) (ha : a ≠ '\\') :
    unescapeStars (a :: l) = a :: unescapeStars l := by
  cases l with
  | nil => rfl
  | cons b t => simp [unescapeStars, ha]

theorem unescapeStars_append_of_no_backslash (xs ys : List Char)
    (h : ∀ c ∈ xs, c ≠ '\\') :
    unescapeStars (xs ++ ys) = xs ++ unescapeStars ys := by
  induction xs with
  | nil => rfl
  | cons a t ih =>
    have ha : a ≠ '\\' := h a (List.mem_cons_self a t)
    rw [List.cons_append, unescapeStars_cons_of_ne a (t ++ ys) ha,
      ih fun c hc => h c (List.mem_cons_of_mem a hc), List.cons_append]

theorem escape_id_of_no_reserved (l : List Char)
    (h : ∀ c ∈ l, c ∉ escapeChars) :
    escape_markdown_v2_list l = l := by
  induction l with
  | nil => rfl
  | cons c t ih =>
    have hc : c ∉ escapeChars := h c (List.mem_cons_self c t)
    simp [escape_markdown_v2_list, hc, ih fun d hd => h d (List.mem_cons_of_mem c hd)]

theorem unescapeStars_ne_nil (l : List Char) (h : l ≠ []) : unescapeStars l ≠ [] := by
  match l with
  | [] => exact absurd rfl h
  | [c] => simp [unescapeStars]
  | a :: b :: t =>
    by_cases hab : a = '\\' ∧ b = '*' <;> simp [unescapeStars, hab]

theorem removeEscapes_cons_of_ne (a : Char) (l : List Char) (ha : a ≠ '\\') :
    removeEscapes (a :: l) = a :: removeEscapes l := by
  cases l with
  | nil => rfl
  | cons b t => simp [removeEscapes, ha]

theorem backslash_not_reserved : escapeChars.contains '\\' = false := by decide

theorem isPrefixOf_append_of_le (pat t ys : List Char) (h : pat.length ≤ t.length) :
    pat.isPrefixOf (t ++ ys) = pat.isPrefixOf t := by
  induction pat generalizing t with
  | nil => simp [List.isPrefixOf]
  | cons p ps ih =>
    cases t with
    | nil => simp at h
    | cons c t' =>
      rw [List.cons_append,
        show (p :: ps).isPrefixOf (c :: (t' ++ ys)) = (p == c && ps.isPrefixOf (t' ++ ys)) from rfl,
        show (p :: ps).isPrefixOf (c :: t') = (p == c && ps.isPrefixOf t') from rfl,
        ih t' (by simpa using h)]

theorem countSub_append (a : Char) (pt : List Char) (xs ys : List Char)
    (hfar : ∀ t, t <:+ xs → t ≠ [] → t.length < (a :: pt).length → a ∉ t) :
    countSub (a :: pt) (xs ++ ys) = countSub (a :: pt) xs + countSub (a :: pt) ys := by
  induction xs with
  | nil => simp [countSub]
  | cons c xs' ih =>
    have hx : (a :: pt).isPrefixOf (c :: (xs' ++ ys)) = (a :: pt).isPrefixOf (c :: xs') := by
      by_cases hlen : (a :: pt).length ≤ (c :: xs').length
      · rw [← List.cons_append]
        exact isPrefixOf_append_of_le _ _ _ hlen
      · have hmem : a ∉ c :: xs' :=
          hfar (c :: xs') List.suffix_rfl (by simp) (by simp at hlen ⊢; omega)
        have hne : a ≠ c := fun hEq => hmem (hEq ▸ List.mem_cons_self c xs')
        rw [show (a :: pt).isPrefixOf (c :: (xs' ++ ys)) = (a == c && pt.isPrefixOf (xs' ++ ys)) from rfl,
          show (a :: pt).isPrefixOf (c :: xs') = (a == c && pt.isPrefixOf xs') from rfl,
          beq_eq_false_iff_ne.mpr hne]
        simp
    have ih' := ih (fun t ht hne hlen => hfar t (ht.trans (List.suffix_cons c xs')) hne hlen)
    rw [List.cons_append,
      show countSub (a :: pt) (c :: (xs' ++ ys))
        = (if (a :: pt).isPrefixOf (c :: (xs' ++ ys)) then 1 else 0) + countSub (a :: pt) (xs' ++ ys) from rfl,
      show countSub (a :: pt) (c :: xs')
        = (if (a :: pt).isPrefixOf (c :: xs') then 1 else 0) + countSub (a :: pt) xs' from rfl,
      hx, ih']
    omega

theorem hfar_of_not_mem (a : Char) (xs : List Char) (h : a ∉ xs) :
    ∀ t, t <:+ xs → t ≠ [] → t.length < 42 → a ∉ t :=
  fun _ ht _ _ hmem => h (ht.subset hmem)

theorem hfar_of_drop40 (a : Char) (xs : List Char)
    (h : a ∉ xs.drop (xs.length - 40)) :
    ∀ t, t <:+ xs → t ≠ [] → t.length ≤ 40 → a ∉ t := by
  intro t ht hne hlen hmem
  obtain ⟨s, hs⟩ := ht
  have hdrop : xs.drop s.length = t := by rw [← hs]; exact List.drop_left s t
  have hlensum : s.length + t.length = xs.length := by rw [← hs]; simp
  have hsplit : xs.drop s.length = (xs.drop (xs.length - 40)).drop (s.length - (xs.length - 40)) := by
    rw [List.drop_drop]
    congr 1
    omega
  have hsub : t ⊆ xs.drop (xs.length - 40) := by
    rw [← hdrop, hsplit]
    exact List.drop_subset _ _
  exact h (hsub hmem)

theorem eq_cons_of_head (l : List Char) (a : Char) (h : l.head? = some a) :
    l = a :: l.tail := by
  cases l with
  | nil => simp at h
  | cons c t =>
    simp at h
    rw [h]
    rfl

theorem strip_id_of_not_contains (l : List Char)
    (h : containsSub ("category_".data) l = false) : stripCategoryTags l = l := by
  induction l using stripCategoryTags.induct with
  | case1 rest ih =>
    exfalso
    simp [containsSub, List.isPrefixOf] at h
  | case2 c rest hne ih =>
    have h2 : containsSub ("category_".data) rest = false := by
      simp [containsSub] at h
      exact h.2
    rw [stripCategoryTags.eq_def]
    split
    · rename_i rest1 heq
      obtain ⟨hc, hr⟩ := List.cons.inj heq
      exact (hne rest1 hc hr).elim
    · rename_i c2 rest2 hnm heq
      obtain ⟨hc, hr⟩ := List.cons.inj heq
      subst hc; subst hr
      rw [ih h2]
    · rename_i heq
      simp at heq
  | case3 => rfl

theorem strip_drop_tag (l : List Char) :
    stripCategoryTags ("category_".data ++ l) = stripCategoryTags l := rfl

theorem backslash_not_mem_reserved : '\\' ∉ escapeChars := by decide

theorem removeEscapes_escape (l : List Char) :
    removeEscapes (escape_markdown_v2_list l) = l := by
  induction l with
  | nil => rfl
  | cons c t ih =>
    by_cases hc : c ∈ escapeChars
    · have h1 : escape_markdown_v2_list (c :: t) = '\\' :: c :: escape_markdown_v2_list t := by
        simp [escape_markdown_v2_list, hc]
      rw [h1]
      simp [removeEscapes, hc, ih]
    · have h1 : escape_markdown_v2_list (c :: t) = c :: escape_markdown_v2_list t := by
        simp [escape_markdown_v2_list, hc]
      rw [h1]
      by_cases hbs : c = '\\'
      · subst hbs
        cases t with
        | nil => rfl
        | cons d t' =>
          by_cases hd : d ∈ escapeChars
          · have h2 : escape_markdown_v2_list (d :: t') = '\\' :: d :: escape_markdown_v2_list t' := by
              simp [escape_markdown_v2_list, hd]
            rw [h2]
            have h3 : removeEscapes ('\\' :: '\\' :: d :: escape_markdown_v2_list t')
                = '\\' :: removeEscapes ('\\' :: d :: escape_markdown_v2_list t') := by
              simp [removeEscapes, backslash_not_mem_reserved]
            rw [h3, ← h2, ih]
          · have h2 : escape_markdown_v2_list (d :: t') = d :: escape_markdown_v2_list t' := by
              simp [escape_markdown_v2_list, hd]
            rw [h2]
            have h3 : removeEscapes ('\\' :: d :: escape_markdown_v2_list t')
                = '\\' :: removeEscapes (d :: escape_markdown_v2_list t') := by
              simp [removeEscapes, hd]
            rw [h3, ← h2, ih]
      · rw [removeEscapes_cons_of_ne c _ hbs, ih]

/-! ### Claim theorems -/

/-- C3: for every input string (in particular every string containing any
subset of the reserved characters), applying the markup escaper and then
removing exactly the escape markers the escaper inserted yields the
original string. -/
theorem C3_escape_roundtrip (s : String) :
    (⟨removeEscapes (escape_markdown_v2 s).data⟩ : String) = s := by
  obtain ⟨l⟩ := s
  exact congrArg String.mk (removeEscapes_escape l)

/-- C4: for every input string, the escaper's output is the input in which
every occurrence of a character of the reserved set `escapeChars`
(`_*[]()~`>#+-=|{}.!`) is prefixed by a backslash and every other
character is kept unchanged in place. -/
theorem C4_escape_shape (s : String) :
    (escape_markdown_v2 s).data
      = s.data.flatMap (fun c => if escapeChars.contains c then ['\\', c] else [c]) := by
  obtain ⟨l⟩ := s
  show escape_markdown_v2_list l = _
  induction l with
  | nil => rfl
  | cons c rest ih =>
    by_cases hc : c ∈ escapeChars <;>
      simp_all [escape_markdown_v2_list, hc]

/-- C5: for every key of the fixed category table, dispatching
`category_<key>` selects the category-selection handler (and never the
random-idea handler), and each of the four exact identifiers dispatches to
its own handler. -/
theorem C5_router_dispatch :
    (∀ p ∈ BUSINESS_CATEGORIES,
      callback_query_handler ("category_" ++ p.1) = some Handler.categorySelection ∧
      callback_query_handler ("category_" ++ p.1) ≠ some Handler.randomIdea) ∧
    callback_query_handler "show_categories" = some Handler.showCategories ∧
    callback_query_handler "random_idea" = some Handler.randomIdea ∧
    callback_query_handler "help" = some Handler.showHelp ∧
    callback_query_handler "back_to_start" = some Handler.backToStart := by
  decide

/-- Witness for C5 at the concrete key `"tech"`. -/
theorem C5_router_dispatch_witness :
    callback_query_handler ("category_" ++ "tech") = some Handler.categorySelection ∧
    callback_query_handler ("category_" ++ "tech") ≠ some Handler.randomIdea :=
  C5_router_dispatch.1 ("tech", "🚀 Technology & Software") (by decide)

/-- C6: a callback identifier that matches none of the four exact
identifiers and does not start with `category_` dispatches to no handler
at all. -/
theorem C6_router_unknown_noop (d : String)
    (h1 : d ≠ "show_categories") (h2 : d ≠ "random_idea")
    (h3 : d ≠ "help") (h4 : d ≠ "back_to_start")
    (h5 : ("category_".data).isPrefixOf d.data = false) :
    callback_query_handler d = none := by
  simp [callback_query_handler, route_map, List.lookup, h5,
    beq_eq_false_iff_ne.mpr h1, beq_eq_false_iff_ne.mpr h2,
    beq_eq_false_iff_ne.mpr h3, beq_eq_false_iff_ne.mpr h4]

/-- Witness for C6 at the concrete identifier `"bogus"`. -/
theorem C6_router_unknown_noop_witness : callback_query_handler "bogus" = none :=
  C6_router_unknown_noop "bogus" (by decide) (by decide) (by decide) (by decide)
    (by decide)

theorem star_not_promptPart1 : '*' ∉ promptPart1.data := by decide

set_option maxRecDepth 100000 in
set_option maxHeartbeats 1000000 in
theorem star_not_promptPart2_tail :
    '*' ∉ promptPart2.data.drop (promptPart2.data.length - 40) := by decide

set_option maxRecDepth 100000 in
set_option maxHeartbeats 8000000 in
theorem headerFacts : ∀ h ∈ sectionHeaders,
    h.data.head? = some '*' ∧ h.data.length ≤ 41 ∧
    countSub h.data promptPart1.data = 0 ∧
    countSub h.data promptPart2.data = 1 ∧
    countSub h.data promptPart3.data = 0 := by decide

set_option maxRecDepth 100000 in
set_option maxHeartbeats 2000000 in
theorem catFacts : ∀ p ∈ BUSINESS_CATEGORIES,
    '*' ∉ p.2.data ∧ ∀ h ∈ sectionHeaders, countSub h.data p.2.data = 0 := by decide

theorem countSub_prompt_parts (hd : List Char) (hhead : hd.head? = some '*')
    (hlen : hd.length ≤ 41)
    (c1 : countSub hd promptPart1.data = 0)
    (c2 : countSub hd promptPart2.data = 1)
    (c3 : countSub hd promptPart3.data = 0)
    (N : List Char) (hN : '*' ∉ N) (cN : countSub hd N = 0) :
    countSub hd (promptPart1.data ++ (N ++ (promptPart2.data ++ (N ++ promptPart3.data)))) = 1 := by
  have hcons : hd = '*' :: hd.tail := eq_cons_of_head hd '*' hhead
  have hlenp : ('*' :: hd.tail).length ≤ 41 := by
    have hL : ('*' :: hd.tail).length = hd.length := by rw [← hcons]
    omega
  rw [hcons] at c1 c2 c3 cN
  rw [hcons,
    countSub_append '*' hd.tail promptPart1.data _
      (fun t ht hne hl => hfar_of_not_mem '*' promptPart1.data star_not_promptPart1 t ht hne
        (by simp at hlenp hl ⊢; omega)),
    countSub_append '*' hd.tail N _
      (fun t ht hne hl => hfar_of_not_mem '*' N hN t ht hne
        (by simp at hlenp hl ⊢; omega)),
    countSub_append '*' hd.tail promptPart2.data _
      (fun t ht hne hl => hfar_of_drop40 '*' promptPart2.data star_not_promptPart2_tail t ht hne
        (by simp at hlenp hl ⊢; omega)),
    countSub_append '*' hd.tail N _
      (fun t ht hne hl => hfar_of_not_mem '*' N hN t ht hne
        (by simp at hlenp hl ⊢; omega)),
    c1, c2, c3, cN]

/-- C7: for every category of the fixed table, the prompt builder output
contains the category's display label verbatim and contains each of the
eight required section headers exactly once. -/
theorem C7_prompt_sections :
    sectionHeaders.length = 8 ∧
    ∀ p ∈ BUSINESS_CATEGORIES,
      containsSub p.2.data (generate_business_idea_prompt p.2).data = true ∧
      ∀ h ∈ sectionHeaders,
        countSub h.data (generate_business_idea_prompt p.2).data = 1 := by
  refine ⟨rfl, ?_⟩
  intro p hp
  have hdata : (generate_business_idea_prompt p.2).data
      = promptPart1.data ++ (p.2.data ++ (promptPart2.data ++ (p.2.data ++ promptPart3.data))) := by
    simp [generate_business_idea_prompt, String.data_append, List.append_assoc]
  constructor
  · rw [containsSub_eq_true_iff, hdata]
    exact ⟨promptPart1.data, promptPart2.data ++ (p.2.data ++ promptPart3.data),
      by simp [List.append_assoc]⟩
  · intro h hh
    rw [hdata]
    obtain ⟨hhead, hlen, hc1, hc2, hc3⟩ := headerFacts h hh
    obtain ⟨hstar, hzero⟩ := catFacts p hp
    exact countSub_prompt_parts h.data hhead hlen hc1 hc2 hc3 p.2.data hstar (hzero h hh)

/-- Witness for C7 at the concrete category `"tech"`. -/
theorem C7_prompt_sections_witness :
    containsSub ("🚀 Technology & Software").data
        (generate_business_idea_prompt "🚀 Technology & Software").data = true ∧
    ∀ h ∈ sectionHeaders,
      countSub h.data (generate_business_idea_prompt "🚀 Technology & Software").data = 1 :=
  C7_prompt_sections.2 ("tech", "🚀 Technology & Software") (by decide)

/-- C9: the categories menu holds all 12 display labels of the fixed table
and a back-to-menu control. -/
theorem C9_categories_menu :
    BUSINESS_CATEGORIES.length = 12 ∧
    (BUSINESS_CATEGORIES.all fun p =>
      (show_categories_keyboard.flatten).any fun b => b.text == p.2) = true ∧
    ((show_categories_keyboard.flatten).any fun b =>
      b.text == "🔙 Back to Menu" && b.callback_data == "back_to_start") = true ∧
    containsSub ("Choose a Business Category".data) show_categories_message.data = true := by
  decide

/-- C1: a markup-mode delivery rejected with an unparseable-entities
failure is retried exactly once, as the same content escaped to plain
text; any other transport failure goes to the generic error handler; no
trace ever has more than one plain retry or more than two send attempts. -/
theorem C1_delivery_fallback (idea e : String) :
    (containsSub ("Can't parse entities".data) e.data = true →
      sendIdeaWithFallback idea (TransportResult.badRequest e) =
        [DeliveryAction.attemptMarkdown idea,
         DeliveryAction.attemptPlain (escape_markdown_v2 idea)]) ∧
    (containsSub ("Can't parse entities".data) e.data = false →
      sendIdeaWithFallback idea (TransportResult.badRequest e) =
        [DeliveryAction.attemptMarkdown idea, DeliveryAction.invokeErrorHandler]) ∧
    (∀ r : TransportResult,
      countPlainAttempts (sendIdeaWithFallback idea r) ≤ 1 ∧
      countSendAttempts (sendIdeaWithFallback idea r) ≤ 2) := by
  refine ⟨fun h => by simp [sendIdeaWithFallback, h],
    fun h => by simp [sendIdeaWithFallback, h], fun r => ?_⟩
  cases r with
  | ok =>
    simp [sendIdeaWithFallback, countPlainAttempts, countSendAttempts,
      List.countP_cons, List.countP_nil]
  | badRequest e2 =>
    by_cases h : containsSub ("Can't parse entities".data) e2.data <;>
      simp [sendIdeaWithFallback, h, countPlainAttempts, countSendAttempts,
        List.countP_cons, List.countP_nil]

/-- Witness for C1: a parse-entities rejection triggers exactly the
escaped plain-text retry, a different transport error goes to the error
handler. -/
theorem C1_delivery_fallback_witness :
    sendIdeaWithFallback "Idea *" (TransportResult.badRequest "Bad Request: Can't parse entities") =
      [DeliveryAction.attemptMarkdown "Idea *",
       DeliveryAction.attemptPlain (escape_markdown_v2 "Idea *")] ∧
    sendIdeaWithFallback "Idea *" (TransportResult.badRequest "Timed out") =
      [DeliveryAction.attemptMarkdown "Idea *", DeliveryAction.invokeErrorHandler] :=
  ⟨(C1_delivery_fallback "Idea *" "Bad Request: Can't parse entities").1 (by decide),
   (C1_delivery_fallback "Idea *" "Timed out").2.1 (by decide)⟩

/-- C8: when the chat token or the completion key is absent (or empty),
`run` only logs a critical message: it registers no handlers and starts
no transport. -/
theorem C8_startup_guard (token geminiKey : Option String) (modelOk : Bool)
    (webhookUrl : Option String)
    (h : truthy token = false ∨ truthy geminiKey = false) :
    (∃ msg, run token geminiKey modelOk webhookUrl = [RunAction.logCritical msg]) ∧
    RunAction.registerHandlers ∉ run token geminiKey modelOk webhookUrl ∧
    RunAction.startWebhook ∉ run token geminiKey modelOk webhookUrl ∧
    RunAction.startPolling ∉ run token geminiKey modelOk webhookUrl := by
  rcases h with h | h
  · simp [run, h]
  · by_cases ht : truthy token <;> simp [run, ht, h]

/-- Witness for C8 with the chat token unset. -/
theorem C8_startup_guard_witness :
    (∃ msg, run none (some "k") true none = [RunAction.logCritical msg]) ∧
    RunAction.registerHandlers ∉ run none (some "k") true none ∧
    RunAction.startWebhook ∉ run none (some "k") true none ∧
    RunAction.startPolling ∉ run none (some "k") true none :=
  C8_startup_guard none (some "k") true none (Or.inl rfl)

set_option maxRecDepth 100000 in
set_option maxHeartbeats 2000000 in
/-- Counterexample to C2 as stated: for the real category
`🛒 E-commerce & Online Business` the gateway's error string does not
contain the category name (its `-` is escaped), and the string holds
unescaped reserved `.` characters outside the template markup. -/
theorem C2_counterexample :
    containsSub ("🛒 E-commerce & Online Business".data)
        (generate_business_idea_onFailure "🛒 E-commerce & Online Business"
          "Gemini AI model is not initialized.").data = false ∧
    allNonMarkupEscaped
        (generate_business_idea_onFailure "🛒 E-commerce & Online Business"
          "Gemini AI model is not initialized.").data = false := by
  decide

/-- C2 as amended: on failure the gateway returns a non-empty string, and
whenever the category name holds no reserved character and no backslash
the string contains the category name verbatim (in general it contains
the escaped name; full escaping outside the template markup fails on the
template's own `.` characters, see the counterexample). -/
theorem C2_amended_gateway_error (category_name err : String) :
    generate_business_idea_onFailure category_name err ≠ "" ∧
    ((∀ c ∈ category_name.data, c ∉ escapeChars ∧ c ≠ '\\') →
      containsSub category_name.data
        (generate_business_idea_onFailure category_name err).data = true) := by
  have hdata : (generate_business_idea_onFailure category_name err).data
      = unescapeStars (errPart1.data ++ escape_markdown_v2_list category_name.data
          ++ errPart2.data ++ escape_markdown_v2_list err.data ++ errPart3.data) := by
    simp [generate_business_idea_onFailure, escape_markdown_v2, String.data_append]
  constructor
  · intro hEq
    have hnil : (generate_business_idea_onFailure category_name err).data = [] := by
      rw [hEq]
    rw [hdata] at hnil
    exact unescapeStars_ne_nil _
      (by simp [List.append_eq_nil, show errPart1.data ≠ [] from by decide]) hnil
  · intro hres
    have hescname : escape_markdown_v2_list category_name.data = category_name.data :=
      escape_id_of_no_reserved _ (fun c hc => (hres c hc).1)
    rw [containsSub_eq_true_iff, hdata, hescname]
    have hnb : ∀ c ∈ errPart1.data ++ category_name.data, c ≠ '\\' := by
      intro c hc
      rcases List.mem_append.mp hc with h | h
      · exact (by decide : ∀ c ∈ errPart1.data, c ≠ '\\') c h
      · exact (hres c h).2
    have hassoc : errPart1.data ++ category_name.data ++ errPart2.data
          ++ escape_markdown_v2_list err.data ++ errPart3.data
        = (errPart1.data ++ category_name.data)
          ++ (errPart2.data ++ escape_markdown_v2_list err.data ++ errPart3.data) := by
      simp [List.append_assoc]
    rw [hassoc, unescapeStars_append_of_no_backslash _ _ hnb]
    exact ⟨errPart1.data, unescapeStars
      (errPart2.data ++ escape_markdown_v2_list err.data ++ errPart3.data),
      by simp [List.append_assoc]⟩

set_option maxRecDepth 100000 in
/-- Witness for C2 as amended, at a real category whose label has no
reserved characters. -/
theorem C2_amended_gateway_error_witness :
    generate_business_idea_onFailure "🏥 Health & Wellness" "x" ≠ "" ∧
    containsSub ("🏥 Health & Wellness".data)
      (generate_business_idea_onFailure "🏥 Health & Wellness" "x").data = true :=
  ⟨(C2_amended_gateway_error "🏥 Health & Wellness" "x").1,
   (C2_amended_gateway_error "🏥 Health & Wellness" "x").2 (by decide)⟩

/-- Counterexample to C10 as stated: `"category_tech"` is not a key of the
table, yet the identifier `category_category_tech` resolves to the tech
label, not to `"Unknown Category"`, because the handler removes every
occurrence of `"category_"`, not only the leading one. -/
theorem C10_counterexample :
    BUSINESS_CATEGORIES.lookup "category_tech" = none ∧
    (handle_category_selection ("category_" ++ "category_tech")).category_name
      = "🚀 Technology & Software" ∧
    ("🚀 Technology & Software" : String) ≠ "Unknown Category" := by
  decide

/-- C10 as amended: the handler never raises; it removes every occurrence
of `category_` from the identifier and looks the remainder up; whenever
the `<k>` part holds no further `category_` occurrence and is not a table
key, the label falls back to `"Unknown Category"` and the handler
proceeds through the same loading-message and generation path as a valid
key. -/
theorem C10_amended_unknown_category (k : String)
    (h1 : containsSub ("category_".data) k.data = false)
    (h2 : BUSINESS_CATEGORIES.lookup k = none) :
    handle_category_selection ("category_" ++ k)
      = { category_key := k, category_name := "Unknown Category",
          loading_text := loadingText "Unknown Category" } := by
  obtain ⟨kl⟩ := k
  have hstrip : stripCategoryTags
      ('c' :: 'a' :: 't' :: 'e' :: 'g' :: 'o' :: 'r' :: 'y' :: '_' :: kl) = kl :=
    strip_id_of_not_contains kl h1
  simp [handle_category_selection, hstrip, h2]

/-- Witness for C10 as amended, at the concrete unknown key `"zzz"`. -/
theorem C10_amended_unknown_category_witness :
    handle_category_selection ("category_" ++ "zzz")
      = { category_key := "zzz", category_name := "Unknown Category",
          loading_text := loadingText "Unknown Category" } :=
  C10_amended_unknown_category "zzz" (by decide) (by decide)
